import Mathlib

/-!
Verification of the dispatch core of the back-irix gateway.

The definitions below are a shallow embedding of the JavaScript source:

* the bounded-concurrency dispatcher of `services/geminiService.js`
  (`getGeminiReply`, `processQueue`, `MAX_CONCURRENT_REQUESTS`,
  `activeRequests`, `requestQueue`);
* the credential/version rotation cursor (`getNextEndpoint`,
  `currentKeyIndex`, `currentVersionIndex`, `API_KEYS`, `VERSIONS`);
* the Socket.IO stream status gate (`initializeSocketServer`);
* the socket image pipeline (`ImageHandler._validateImageData`,
  `ImageHandler._preprocessImage`, `ImageHandler.processImageFromSocket`)
  with the constants of `socket/SocketEvents.js`;
* the reply parsing block of `controllers/imageController.js#detectPlate`,
  together with executable models of the platform facilities it uses
  (`JSON.parse`, the regex for plate patterns, `String.prototype.trim`).

Stateful code is embedded as explicit state passing plus a step relation;
fallible code returns `Option`.
-/

namespace BackIrix

/-! ### Bounded concurrency dispatcher (services/geminiService.js) -/

/-- Source constant `MAX_CONCURRENT_REQUESTS = 20`. -/
def MAX_CONCURRENT_REQUESTS : Nat := 20

/-- Mutable module state of `geminiService.js`.  Tasks are identified by a
`Nat` id (the buffer/options payload plays no role in the queue discipline).
`enqLog` and `deqLog` are ghost history variables recording, in order, the
ids ever pushed onto `requestQueue` and the ids ever shifted off it; they
are not part of the JavaScript state and are only used to state the FIFO
property. -/
structure DispatchState where
  activeRequests : Nat
  requestQueue : List Nat
  requestCount : Nat
  enqLog : List Nat
  deqLog : List Nat
deriving DecidableEq

/-- The state of the module at process start: all counters zero, empty queue. -/
def initState : DispatchState :=
  { activeRequests := 0, requestQueue := [], requestCount := 0,
    enqLog := [], deqLog := [] }

/-- Source `processQueue()`: returns unchanged if the queue is empty or
`activeRequests >= MAX_CONCURRENT_REQUESTS`; otherwise shifts the head of
`requestQueue` and increments `activeRequests` (the shifted task is started). -/
def processQueue (s : DispatchState) : DispatchState :=
  match s.requestQueue with
  | [] => s
  | t :: rest =>
    if MAX_CONCURRENT_REQUESTS ≤ s.activeRequests then s
    else
      { s with requestQueue := rest, activeRequests := s.activeRequests + 1,
               deqLog := s.deqLog ++ [t] }

/-- Source `getGeminiReply(buffer, options)` admission step: increments
`requestCount`; if `activeRequests < MAX_CONCURRENT_REQUESTS` it increments
`activeRequests` and starts the call at once, otherwise it pushes the task
onto `requestQueue`.  In the source `requestCount++` runs before the branch;
the counter does not influence the branch condition, so both updates are
written inside each branch here. -/
def getGeminiReply (id : Nat) (s : DispatchState) : DispatchState :=
  if s.activeRequests < MAX_CONCURRENT_REQUESTS then
    { s with requestCount := s.requestCount + 1,
             activeRequests := s.activeRequests + 1 }
  else
    { s with requestCount := s.requestCount + 1,
             requestQueue := s.requestQueue ++ [id],
             enqLog := s.enqLog ++ [id] }

/-- Completion of an in-flight call.  Both the immediate path of
`getGeminiReply` (its `finally` block) and the worker spawned by
`processQueue` (its `.finally`) run `activeRequests--; processQueue()`. -/
def completeRequest (s : DispatchState) : DispatchState :=
  processQueue { s with activeRequests := s.activeRequests - 1 }

/-- One event of the dispatcher: a submission, or the completion of one of
the in-flight calls (a completion can only happen while a call is in
flight, hence the precondition `0 < activeRequests`). -/
inductive DStep : DispatchState → DispatchState → Prop
  | submit (id : Nat) (s : DispatchState) : DStep s (getGeminiReply id s)
  | complete (s : DispatchState) (h : 0 < s.activeRequests) : DStep s (completeRequest s)

/-- States reachable from the initial module state by dispatcher events. -/
inductive DReachable : DispatchState → Prop
  | init : DReachable initState
  | step {s s' : DispatchState} : DReachable s → DStep s s' → DReachable s'

/-- Equation for `processQueue` on an empty queue. -/
theorem processQueue_of_nil {s : DispatchState} (h : s.requestQueue = []) :
    processQueue s = s := by
  unfold processQueue
  rw [h]

/-- Equation for `processQueue` at the cap: nothing is started. -/
theorem processQueue_of_full {s : DispatchState} {t : Nat} {rest : List Nat}
    (h : s.requestQueue = t :: rest)
    (hge : MAX_CONCURRENT_REQUESTS ≤ s.activeRequests) :
    processQueue s = s := by
  unfold processQueue
  rw [h]
  exact if_pos hge

/-- Equation for `processQueue` below the cap with a non-empty queue: the
head is shifted off and started. -/
theorem processQueue_of_ready {s : DispatchState} {t : Nat} {rest : List Nat}
    (h : s.requestQueue = t :: rest)
    (hlt : s.activeRequests < MAX_CONCURRENT_REQUESTS) :
    processQueue s =
      { s with requestQueue := rest, activeRequests := s.activeRequests + 1,
               deqLog := s.deqLog ++ [t] } := by
  unfold processQueue
  rw [h]
  exact if_neg (Nat.not_le.mpr hlt)

/-- Equation for `completeRequest` on an empty backlog: only the decrement
happens. -/
theorem completeRequest_of_nil {s : DispatchState} (h : s.requestQueue = []) :
    completeRequest s = { s with activeRequests := s.activeRequests - 1 } := by
  unfold completeRequest
  exact processQueue_of_nil (s := { s with activeRequests := s.activeRequests - 1 }) h

/-- Equation for `completeRequest` when the decremented count still meets
the cap: only the decrement happens. -/
theorem completeRequest_of_full {s : DispatchState} {t : Nat} {rest : List Nat}
    (h : s.requestQueue = t :: rest)
    (hge : MAX_CONCURRENT_REQUESTS ≤ s.activeRequests - 1) :
    completeRequest s = { s with activeRequests := s.activeRequests - 1 } := by
  unfold completeRequest
  exact processQueue_of_full (s := { s with activeRequests := s.activeRequests - 1 }) h hge

/-- Equation for `completeRequest` when the backlog is non-empty and the
decremented count is below the cap: the head of the backlog is started. -/
theorem completeRequest_of_ready {s : DispatchState} {t : Nat} {rest : List Nat}
    (h : s.requestQueue = t :: rest)
    (hlt : s.activeRequests - 1 < MAX_CONCURRENT_REQUESTS) :
    completeRequest s =
      { s with activeRequests := s.activeRequests - 1 + 1,
               requestQueue := rest,
               deqLog := s.deqLog ++ [t] } := by
  unfold completeRequest
  exact processQueue_of_ready (s := { s with activeRequests := s.activeRequests - 1 }) h hlt

/-- Inductive invariant of the dispatcher: the active-call count never
exceeds the cap, and the backlog history satisfies
`enqLog = deqLog ++ requestQueue` (tasks leave the queue in exactly the
order they entered it). -/
theorem dispatch_invariant {s : DispatchState} (hs : DReachable s) :
    s.activeRequests ≤ MAX_CONCURRENT_REQUESTS ∧
    s.enqLog = s.deqLog ++ s.requestQueue := by
  induction hs with
  | init => exact ⟨by decide, rfl⟩
  | @step s s' hr hstep ih =>
    cases hstep with
    | submit id s =>
      unfold getGeminiReply
      by_cases hlt : s.activeRequests < MAX_CONCURRENT_REQUESTS
      · rw [if_pos hlt]
        exact ⟨hlt, ih.2⟩
      · rw [if_neg hlt]
        refine ⟨ih.1, ?_⟩
        simp only [ih.2, List.append_assoc]
    | complete s hpos =>
      cases hq : s.requestQueue with
      | nil =>
        rw [completeRequest_of_nil hq]
        refine ⟨Nat.le_trans (Nat.sub_le _ _) ih.1, ?_⟩
        simpa [hq] using ih.2
      | cons t rest =>
        by_cases hge : MAX_CONCURRENT_REQUESTS ≤ s.activeRequests - 1
        · rw [completeRequest_of_full hq hge]
          refine ⟨Nat.le_trans (Nat.sub_le _ _) ih.1, ?_⟩
          simpa [hq] using ih.2
        · rw [completeRequest_of_ready hq (Nat.not_le.mp hge)]
          constructor
          · show s.activeRequests - 1 + 1 ≤ MAX_CONCURRENT_REQUESTS
            omega
          · show s.enqLog = (s.deqLog ++ [t]) ++ rest
            rw [ih.2, hq, List.append_assoc]
            rfl

/-- Claim C1: in every reachable dispatcher state the number of
concurrently-active upstream calls is at most `MAX_CONCURRENT_REQUESTS`;
a submission arriving with the cap reached is appended to the FIFO backlog
(active count unchanged), and a submission arriving below the cap is
started immediately (active count incremented, backlog unchanged). -/
theorem getGeminiReply_respects_cap (s : DispatchState) (hs : DReachable s) :
    s.activeRequests ≤ MAX_CONCURRENT_REQUESTS ∧
    (∀ id, MAX_CONCURRENT_REQUESTS ≤ s.activeRequests →
      getGeminiReply id s =
        { s with requestCount := s.requestCount + 1,
                 requestQueue := s.requestQueue ++ [id],
                 enqLog := s.enqLog ++ [id] }) ∧
    (∀ id, s.activeRequests < MAX_CONCURRENT_REQUESTS →
      getGeminiReply id s =
        { s with requestCount := s.requestCount + 1,
                 activeRequests := s.activeRequests + 1 }) := by
  refine ⟨(dispatch_invariant hs).1, ?_, ?_⟩
  · intro id hge
    unfold getGeminiReply
    rw [if_neg (by omega)]
  · intro id hlt
    unfold getGeminiReply
    rw [if_pos hlt]

/-- Witness for C1 at concrete inputs: the initial state is reachable and
satisfies the cap bound, and a submission in the initial (empty) state is
started immediately. -/
theorem getGeminiReply_respects_cap_witness :
    initState.activeRequests ≤ MAX_CONCURRENT_REQUESTS ∧
    getGeminiReply 7 initState =
      { initState with requestCount := initState.requestCount + 1,
                       activeRequests := initState.activeRequests + 1 } :=
  ⟨(getGeminiReply_respects_cap initState DReachable.init).1,
   (getGeminiReply_respects_cap initState DReachable.init).2.2 7 (by decide)⟩

/-- The state after the 21 submissions `0, 1, ..., 20` from the initial
state: twenty calls active (the cap) and task 20 queued. -/
def fullState : DispatchState :=
  (List.range 21).foldl (fun s id => getGeminiReply id s) initState

/-- Folding submissions over a reachable state stays reachable. -/
theorem foldl_submit_reachable (ids : List Nat) :
    ∀ s : DispatchState, DReachable s →
      DReachable (ids.foldl (fun s id => getGeminiReply id s) s) := by
  induction ids with
  | nil => intro s h; exact h
  | cons a t ih =>
    intro s h
    exact ih _ (DReachable.step h (DStep.submit a s))

/-- The concrete saturated state is reachable. -/
theorem fullState_reachable : DReachable fullState :=
  foldl_submit_reachable (List.range 21) initState DReachable.init

/-- Claim C2: completion decrements the active count and then, exactly when
the backlog is non-empty and the decremented count is below the cap, shifts
the head (oldest element) of the backlog and starts it; otherwise it only
decrements.  In every reachable state the ghost logs satisfy
`enqLog = deqLog ++ requestQueue`, so tasks leave the backlog in strict
first-in-first-out submission order. -/
theorem completeRequest_fifo (s : DispatchState) (hs : DReachable s) :
    s.enqLog = s.deqLog ++ s.requestQueue ∧
    (∀ t rest, s.requestQueue = t :: rest →
      s.activeRequests - 1 < MAX_CONCURRENT_REQUESTS →
      completeRequest s =
        { s with activeRequests := s.activeRequests - 1 + 1,
                 requestQueue := rest,
                 deqLog := s.deqLog ++ [t] }) ∧
    (s.requestQueue = [] →
      completeRequest s = { s with activeRequests := s.activeRequests - 1 }) ∧
    (∀ t rest, s.requestQueue = t :: rest →
      MAX_CONCURRENT_REQUESTS ≤ s.activeRequests - 1 →
      completeRequest s = { s with activeRequests := s.activeRequests - 1 }) := by
  refine ⟨(dispatch_invariant hs).2, ?_, ?_, ?_⟩
  · intro t rest hq hlt
    exact completeRequest_of_ready hq hlt
  · intro hq
    exact completeRequest_of_nil hq
  · intro t rest hq hge
    exact completeRequest_of_full hq hge

/-- Witness for C2 at a concrete reachable state: in the saturated state
(20 active, task 20 queued), a completion pops the queued task 20 and
starts it, leaving the active count at the cap. -/
theorem completeRequest_fifo_witness :
    completeRequest fullState =
      { fullState with activeRequests := fullState.activeRequests - 1 + 1,
                       requestQueue := [],
                       deqLog := fullState.deqLog ++ [20] } :=
  (completeRequest_fifo fullState fullState_reachable).2.1 20 [] (by decide) (by decide)

/-! ### Credential rotation cursor (services/geminiService.js, getNextEndpoint) -/

/-- Source constant `VERSIONS = ["2.0", "2.5"]`. -/
def VERSIONS : List String := ["2.0", "2.5"]

/-- Source constant `API_KEYS = [env.API_KEY, env.API_KEY2, env.API_KEY3,
env.API_KEY4]`.  The secrets are opaque environment values; the entries are
modelled by the names of the environment variables holding them.  Only the
length of this list matters to the rotation logic. -/
def API_KEYS : List String := ["API_KEY", "API_KEY2", "API_KEY3", "API_KEY4"]

/-- Module-level cursor `currentKeyIndex` / `currentVersionIndex` of
`geminiService.js` (both start at 0). -/
structure RotationState where
  currentKeyIndex : Nat
  currentVersionIndex : Nat
deriving DecidableEq

/-- Source `getNextEndpoint()`: returns the (key index, version index) pair
used for this dispatched call, then advances the version index modulo
`VERSIONS.length` and, exactly when it wraps to 0, advances the key index
modulo `API_KEYS.length`.  The endpoint URL built from the pair
(`env.URI_BASE`, the version string and the key) is determined by the pair
and is not modelled separately. -/
def getNextEndpoint (s : RotationState) : (Nat × Nat) × RotationState :=
  let pair := (s.currentKeyIndex, s.currentVersionIndex)
  let nextVersion := (s.currentVersionIndex + 1) % VERSIONS.length
  if nextVersion = 0 then
    (pair, { currentKeyIndex := (s.currentKeyIndex + 1) % API_KEYS.length,
             currentVersionIndex := nextVersion })
  else
    (pair, { currentKeyIndex := s.currentKeyIndex,
             currentVersionIndex := nextVersion })

/-- The state transition of one dispatched call. -/
def rotStep (s : RotationState) : RotationState := (getNextEndpoint s).2

/-- The (credential, variant) pairs handed out by the first `n` dispatched
calls starting from cursor state `s`. -/
def visitedPairs (s : RotationState) (n : Nat) : List (Nat × Nat) :=
  (List.range n).map fun i => (getNextEndpoint (rotStep^[i] s)).1

/-- Claim C3: from any in-bounds cursor state, one dispatched call advances
the version index modulo `VERSIONS.length` and advances the key index
(modulo `API_KEYS.length`) exactly when the version index wraps to zero;
both indices stay in bounds; after `API_KEYS.length * VERSIONS.length`
dispatched calls the cursor returns to its initial pair; and the pairs
visited during one such cycle are pairwise distinct and cover every
(credential, variant) pair. -/
theorem getNextEndpoint_rotation (k v : Nat)
    (hk : k < API_KEYS.length) (hv : v < VERSIONS.length) :
    ((rotStep ⟨k, v⟩).currentKeyIndex < API_KEYS.length ∧
      (rotStep ⟨k, v⟩).currentVersionIndex < VERSIONS.length) ∧
    (getNextEndpoint ⟨k, v⟩).1 = (k, v) ∧
    (rotStep ⟨k, v⟩).currentVersionIndex = (v + 1) % VERSIONS.length ∧
    ((v + 1) % VERSIONS.length = 0 →
      (rotStep ⟨k, v⟩).currentKeyIndex = (k + 1) % API_KEYS.length) ∧
    ((v + 1) % VERSIONS.length ≠ 0 →
      (rotStep ⟨k, v⟩).currentKeyIndex = k) ∧
    rotStep^[API_KEYS.length * VERSIONS.length] ⟨k, v⟩ = (⟨k, v⟩ : RotationState) ∧
    (visitedPairs ⟨k, v⟩ (API_KEYS.length * VERSIONS.length)).Nodup ∧
    (∀ p ∈ List.product (List.range API_KEYS.length) (List.range VERSIONS.length),
      p ∈ visitedPairs ⟨k, v⟩ (API_KEYS.length * VERSIONS.length)) := by
  have hk4 : k < 4 := hk
  have hv2 : v < 2 := hv
  interval_cases k <;> interval_cases v <;> decide

/-- Witness for C3 at the initial cursor (0, 0). -/
theorem getNextEndpoint_rotation_witness :
    rotStep^[API_KEYS.length * VERSIONS.length] ⟨0, 0⟩ = (⟨0, 0⟩ : RotationState) ∧
    (visitedPairs ⟨0, 0⟩ (API_KEYS.length * VERSIONS.length)).Nodup :=
  ⟨(getNextEndpoint_rotation 0 0 (by decide) (by decide)).2.2.2.2.2.1,
   (getNextEndpoint_rotation 0 0 (by decide) (by decide)).2.2.2.2.2.2.1⟩

/-! ### JavaScript string primitives

Executable models of the platform string operations the socket pipeline
uses (`String.prototype.toLowerCase` and `String.prototype.includes` on
the ASCII fragment that all of the messages of this code base live in). -/

/-- Whether `pat` is a prefix of `s`, on character lists. -/
def startsWithChars : List Char → List Char → Bool
  | [], _ => true
  | _ :: _, [] => false
  | p :: ps, c :: cs => p = c && startsWithChars ps cs

/-- Whether `pat` occurs as a contiguous substring of the second list. -/
def containsSub (pat : List Char) : List Char → Bool
  | [] => startsWithChars pat []
  | c :: cs => startsWithChars pat (c :: cs) || containsSub pat cs

/-- Model of `hay.includes(pat)`. -/
def strIncludes (hay pat : String) : Bool :=
  containsSub pat.toList hay.toList

/-- Model of `String.prototype.toLowerCase` on ASCII letters (every message
inspected by `_getErrorCode` is ASCII). -/
def jsToLower (s : String) : String :=
  ⟨s.toList.map fun c =>
    if 65 ≤ c.toNat ∧ c.toNat ≤ 90 then Char.ofNat (c.toNat + 32) else c⟩

/-! ### Socket constants (socket/SocketEvents.js) -/

/-- Source `IMAGE_CONFIG.MAX_SIZE = 5 * 1024 * 1024`. -/
def IMAGE_CONFIG_MAX_SIZE : Nat := 5 * 1024 * 1024

/-- Source `IMAGE_CONFIG.ALLOWED_FORMATS`. -/
def ALLOWED_FORMATS : List String := ["image/jpeg", "image/png", "image/webp"]

/-- Source `IMAGE_CONFIG.EXPECTED_DIMENSIONS` (a 300 by 300 square). -/
def EXPECTED_DIMENSIONS_width : Nat := 300

/-- Source `SERVER_STATUS` enumeration. -/
inductive ServerStatus where
  | ready
  | processing
  | error
  | maintenance
deriving DecidableEq

/-- Source `ERROR_CODES` enumeration. -/
inductive ErrorCode where
  | INVALID_IMAGE
  | IMAGE_TOO_LARGE
  | PROCESSING_TIMEOUT
  | MODEL_NOT_LOADED
  | INTERNAL_ERROR
  | INVALID_FORMAT
deriving DecidableEq

/-! ### Image validation (socket/ImageHandler.js, _validateImageData) -/

/-- A socket `imageData` message.  `data` is the raw payload (`none` models
a missing or otherwise falsy `data` field); `format` and `size` are the
optional caller-declared metadata fields (a missing or empty `format` and a
missing or zero `size` are falsy in the source and skip their checks; a
declared size of zero also never exceeds the maximum, so `Option` absence
models both). -/
structure ImageData where
  data : Option (List Nat)
  format : Option String
  size : Option Nat
deriving DecidableEq

/-- Result shape of `_validateImageData`. -/
structure ValidationResult where
  isValid : Bool
  error : Option String
deriving DecidableEq

/-- Source helper for the check `imageData.format &&
!IMAGE_CONFIG.ALLOWED_FORMATS.includes(imageData.format)`. -/
def formatNotAllowed (d : ImageData) : Bool :=
  match d.format with
  | some f => !(ALLOWED_FORMATS.contains f)
  | none => false

/-- Source helper for the check `imageData.size && imageData.size >
IMAGE_CONFIG.MAX_SIZE`. -/
def declSizeTooLarge (d : ImageData) : Bool :=
  match d.size with
  | some n => decide (IMAGE_CONFIG_MAX_SIZE < n)
  | none => false

/-- Source `_validateImageData(imageData)`: checks, in order, presence of
`data`, the declared format against the allow-list, and the declared size
against `IMAGE_CONFIG.MAX_SIZE`.  The actual byte length of the payload is
never inspected. -/
def validateImageData (d : ImageData) : ValidationResult :=
  if d.data = none then
    { isValid := false, error := some "No image data provided" }
  else if formatNotAllowed d then
    { isValid := false,
      error := some ("Unsupported format: " ++ d.format.getD "") }
  else if declSizeTooLarge d then
    { isValid := false,
      error := some ("Image too large: " ++ toString (d.size.getD 0) ++
        " bytes (max: " ++ toString IMAGE_CONFIG_MAX_SIZE ++ ")") }
  else
    { isValid := true, error := none }

/-- A concrete submission whose payload is larger than
`IMAGE_CONFIG.MAX_SIZE` but which declares no `size` metadata. -/
def oversizedInput : ImageData :=
  { data := some (List.replicate (IMAGE_CONFIG_MAX_SIZE + 1) 0),
    format := none, size := none }

/-- Counterexample to claim C8 as stated: a stream submission whose payload
exceeds `IMAGE_CONFIG.MAX_SIZE` but declares no size passes validation —
the validator never inspects the actual payload length. -/
theorem validateImageData_ignores_payload_length :
    IMAGE_CONFIG_MAX_SIZE < (oversizedInput.data.getD []).length ∧
    (validateImageData oversizedInput).isValid = true := by
  constructor
  · have h : (oversizedInput.data.getD []).length = IMAGE_CONFIG_MAX_SIZE + 1 := by
      show (List.replicate (IMAGE_CONFIG_MAX_SIZE + 1) 0).length = IMAGE_CONFIG_MAX_SIZE + 1
      exact List.length_replicate _ _
    rw [h]
    exact Nat.lt_succ_self _
  · rfl

/-- Claim C8 as amended: validation rejects a submission for its size
exactly when the caller declares a size and the declared size exceeds
`IMAGE_CONFIG.MAX_SIZE`; in general `_validateImageData` fails exactly on a
missing payload, a declared format outside the allow-list, or a declared
size over the maximum — the actual payload length plays no role. -/
theorem validateImageData_declared_size_only (d : ImageData) :
    (∀ n, d.size = some n → IMAGE_CONFIG_MAX_SIZE < n → d.data ≠ none →
      formatNotAllowed d = false →
      validateImageData d =
        { isValid := false,
          error := some ("Image too large: " ++ toString n ++
            " bytes (max: " ++ toString IMAGE_CONFIG_MAX_SIZE ++ ")") }) ∧
    ((validateImageData d).isValid = false ↔
      d.data = none ∨ formatNotAllowed d = true ∨ declSizeTooLarge d = true) := by
  constructor
  · intro n hn hlt hdata hfmt
    unfold validateImageData
    rw [if_neg hdata, if_neg (by simp [hfmt]),
        if_pos (by simp [declSizeTooLarge, hn, hlt])]
    simp [hn]
  · unfold validateImageData
    by_cases h1 : d.data = none
    · simp [h1]
    · rw [if_neg h1]
      by_cases h2 : formatNotAllowed d = true
      · simp [h1, h2]
      · rw [if_neg (by simp [Bool.not_eq_true] at h2; simp [h2])]
        by_cases h3 : declSizeTooLarge d = true
        · simp [h1, h2, h3]
        · rw [if_neg (by simp [Bool.not_eq_true] at h3; simp [h3])]
          simp [h1, h2, h3]

/-- Witness for C8 amended at a concrete input: a declared size of
`MAX_SIZE + 1` is rejected with the too-large message. -/
theorem validateImageData_declared_size_only_witness :
    validateImageData
        { data := some [0], format := none, size := some (IMAGE_CONFIG_MAX_SIZE + 1) } =
      { isValid := false,
        error := some ("Image too large: " ++ toString (IMAGE_CONFIG_MAX_SIZE + 1) ++
          " bytes (max: " ++ toString IMAGE_CONFIG_MAX_SIZE ++ ")") } :=
  (validateImageData_declared_size_only
      { data := some [0], format := none, size := some (IMAGE_CONFIG_MAX_SIZE + 1) }).1
    (IMAGE_CONFIG_MAX_SIZE + 1) rfl (Nat.lt_succ_self _) (by decide) rfl

/-! ### Error code mapping (socket/ImageHandler.js, _getErrorCode) -/

/-- Source `_getErrorCode(error)`: maps the lower-cased error message to a
code of the taxonomy by substring tests, in source order. -/
def getErrorCode (message : String) : ErrorCode :=
  let m := jsToLower message
  if strIncludes m "not initialized" then ErrorCode.MODEL_NOT_LOADED
  else if strIncludes m "format" || strIncludes m "conversion" then ErrorCode.INVALID_FORMAT
  else if strIncludes m "too large" || strIncludes m "size" then ErrorCode.IMAGE_TOO_LARGE
  else if strIncludes m "timeout" then ErrorCode.PROCESSING_TIMEOUT
  else ErrorCode.INTERNAL_ERROR

/-! ### Socket image pipeline (socket/ImageHandler.js, processImageFromSocket)

`processImageFromSocket` wraps its whole body in `try`/`catch`: every
failure (validation, buffer conversion, sharp preprocessing) is caught and
turned into a RESOLVED object `{ success: false, ..., error: { code,
message, processingTime } }` with no `result` field; the returned promise
never rejects.  The buffer conversion, the sharp call and the detection
service are external effects, modelled by an oracle describing their
behavior on this submission. -/

/-- The `result` field of a successful reply:
`{ hasPlate, confidence, processingTime }`. -/
structure ResultPayload where
  hasPlate : Bool
  confidence : Rat
  processingTime : Nat
deriving DecidableEq

/-- The `error` field of a failed reply: `{ code, message, processingTime }`. -/
structure ErrorPayload where
  code : ErrorCode
  message : String
  processingTime : Nat
deriving DecidableEq

/-- The resolved value of `processImageFromSocket`.  A JavaScript object
field that is absent reads as `undefined`; that is modelled by `none`. -/
structure ProcessOutcome where
  success : Bool
  result : Option ResultPayload
  error : Option ErrorPayload
deriving DecidableEq

/-- The `result` field of the detection service reply, as read by
`detectionResult.result?.hasPlate` and `detectionResult.result?.confidence`
(`none` models a service reply without a `result` field). -/
structure DetectionFields where
  hasPlate : Bool
  confidence : Rat
deriving DecidableEq

/-- Behavior of the external stages for one submission: an error message if
`_convertToBuffer` rejects, an error message if the sharp preprocessing
rejects, and the `result` field of the detection service reply otherwise
(`DetectionService.detectPlate` itself traps its failures and resolves, so
it contributes no rejection path). -/
structure ExternalBehavior where
  convertError : Option String
  preprocessError : Option String
  detectionResult : Option DetectionFields
deriving DecidableEq

/-- Failure branch of the `catch` in `processImageFromSocket`. -/
def mkProcessFailure (message : String) (processingTime : Nat) : ProcessOutcome :=
  { success := false,
    result := none,
    error := some { code := getErrorCode message, message := message,
                    processingTime := processingTime } }

/-- Source `processImageFromSocket(imageData, socketId)`, with the handler
initialized (the server only installs the socket listener after
`imageHandler.initialize()` succeeded).  `processingTime` stands for the
measured wall-clock time, irrelevant to control flow. -/
def processImageFromSocket (d : ImageData) (ext : ExternalBehavior)
    (processingTime : Nat) : ProcessOutcome :=
  let v := validateImageData d
  if v.isValid = false then
    mkProcessFailure (v.error.getD "") processingTime
  else
    match ext.convertError with
    | some m => mkProcessFailure ("Error convirtiendo imagen: " ++ m) processingTime
    | none =>
      match ext.preprocessError with
      | some m => mkProcessFailure ("Error procesando imagen: " ++ m) processingTime
      | none =>
        { success := true,
          result := some
            { hasPlate := (ext.detectionResult.map DetectionFields.hasPlate).getD false,
              confidence := (ext.detectionResult.map DetectionFields.confidence).getD 0,
              processingTime := processingTime },
          error := none }

/-! ### Stream status gate (initializeSocketServer) -/

/-- An event emitted to the client on the stream channel. -/
inductive EmittedEvent where
  | analysisResult (payload : Option ResultPayload)
  | analysisError (code : ErrorCode) (message : String)
deriving DecidableEq

/-- What the `analyze-image` listener emits once the handler promise
settles.  `processImageFromSocket` always resolves, so only the `.then`
callback ever runs and it emits `ANALYSIS_RESULT` with `result.result` —
which is `undefined` (`none`) when the handler reported a failure.  The
`.catch` callback (which would emit `ANALYSIS_ERROR` with
`{ code, message }`) is unreachable for handler-reported failures. -/
def emitForSettledPromise (o : ProcessOutcome) : EmittedEvent :=
  EmittedEvent.analysisResult o.result

/-- Admission decision of the `analyze-image` listener: the status flag is
checked first; when it is not READY the listener emits an immediate
`ANALYSIS_ERROR` and returns without invoking `processImageFromSocket`
(hence nothing is queued anywhere); otherwise the status becomes
PROCESSING and the frame is dispatched. -/
structure AnalyzeAdmission where
  newStatus : ServerStatus
  rejection : Option (ErrorCode × String)
  dispatched : Bool
deriving DecidableEq

/-- Source `analyze-image` handler head (`if (serverStatus !==
SERVER_STATUS.READY) return socket.emit(ANALYSIS_ERROR, ...)`). -/
def analyzeImageAdmission (st : ServerStatus) : AnalyzeAdmission :=
  if st ≠ ServerStatus.ready then
    { newStatus := st,
      rejection := some (ErrorCode.INTERNAL_ERROR, "Servidor no está listo para procesar."),
      dispatched := false }
  else
    { newStatus := ServerStatus.processing, rejection := none, dispatched := true }

/-- Status written when the in-flight frame settles: the `.then` callback
(`resolved = true`) and the `.catch` callback (`resolved = false`) both
assign `SERVER_STATUS.READY`. -/
def settleStatus (resolved : Bool) : ServerStatus :=
  match resolved with
  | true => ServerStatus.ready
  | false => ServerStatus.ready

/-- Claim C4: a stream submission arriving while the status is not READY is
rejected immediately (an error is emitted, the status is left unchanged,
and the frame is not dispatched, so it can reach no backlog), a submission
arriving while READY is dispatched with the status moved to PROCESSING, and
whenever the in-flight frame settles — resolved or rejected — the status
returns to READY. -/
theorem streamGate_rejects_and_recovers (st : ServerStatus)
    (h : st ≠ ServerStatus.ready) :
    (analyzeImageAdmission st).dispatched = false ∧
    (analyzeImageAdmission st).rejection =
      some (ErrorCode.INTERNAL_ERROR, "Servidor no está listo para procesar.") ∧
    (analyzeImageAdmission st).newStatus = st ∧
    (analyzeImageAdmission ServerStatus.ready).dispatched = true ∧
    (analyzeImageAdmission ServerStatus.ready).newStatus = ServerStatus.processing ∧
    (∀ resolved, settleStatus resolved = ServerStatus.ready) := by
  unfold analyzeImageAdmission
  rw [if_pos h]
  refine ⟨rfl, rfl, rfl, by rw [if_neg (by simp)], by rw [if_neg (by simp)], ?_⟩
  intro resolved
  cases resolved <;> rfl

/-- Witness for C4 at the concrete status PROCESSING: a second stream
submission is rejected, not dispatched, and settling returns to READY. -/
theorem streamGate_rejects_and_recovers_witness :
    (analyzeImageAdmission ServerStatus.processing).dispatched = false ∧
    settleStatus false = ServerStatus.ready :=
  ⟨(streamGate_rejects_and_recovers ServerStatus.processing (by decide)).1,
   (streamGate_rejects_and_recovers ServerStatus.processing (by decide)).2.2.2.2.2 false⟩

/-- The C9 failing input: an `analyze-image` message carrying no `data`
field (a validation failure inside the handler). -/
def c9Input : ImageData := { data := none, format := none, size := none }

/-- External stages for the C9 failing input (never reached). -/
def c9Ext : ExternalBehavior :=
  { convertError := none, preprocessError := none, detectionResult := none }

/-- A well-formed submission and successful external stages. -/
def okInput : ImageData :=
  { data := some [1, 2, 3], format := some "image/jpeg", size := some 3 }

/-- External behavior where every stage succeeds and the detector reports a
plate with confidence 9/10. -/
def okExt : ExternalBehavior :=
  { convertError := none, preprocessError := none,
    detectionResult := some { hasPlate := true, confidence := 9 / 10 } }

/-- Claim C9 fails on the code (code bug): a stream submission that fails
inside the handler resolves with `success: false` and a structured
`{ code, message }` error object, but the socket layer then emits
`ANALYSIS_RESULT` with the absent `result` field (`undefined`) instead of
the `ANALYSIS_ERROR` event the claim (and the error taxonomy) promises —
the client never receives `{ code, message }`.  A successful submission
does carry `{ hasPlate, confidence, processingTime }` as claimed. -/
theorem socket_failure_never_emits_error_event :
    (processImageFromSocket c9Input c9Ext 5).success = false ∧
    (processImageFromSocket c9Input c9Ext 5).error =
      some { code := ErrorCode.INTERNAL_ERROR, message := "No image data provided",
             processingTime := 5 } ∧
    emitForSettledPromise (processImageFromSocket c9Input c9Ext 5) =
      EmittedEvent.analysisResult none ∧
    (∀ c m, emitForSettledPromise (processImageFromSocket c9Input c9Ext 5) ≠
      EmittedEvent.analysisError c m) ∧
    emitForSettledPromise (processImageFromSocket okInput okExt 7) =
      EmittedEvent.analysisResult
        (some { hasPlate := true, confidence := 9 / 10, processingTime := 7 }) := by
  refine ⟨rfl, rfl, rfl, ?_, rfl⟩
  intro c m hEq
  exact EmittedEvent.noConfusion hEq

/-! ### Frame normalizer (socket/ImageHandler.js, _preprocessImage)

The geometry of the sharp `resize(width, height, { fit })` call is modelled
by the documented semantics of the two fit policies relevant here:
`fill` stretches the whole source onto the target rectangle, scaling each
axis independently and cropping nothing; `cover` (the crop-to-fill policy)
scales both axes by the same factor and crops the overflowing axis.  A plan
records the output dimensions, the dimensions of the source region that is
sampled, and the per-axis scale factors. -/

/-- The two sharp fit policies relevant to this code path. -/
inductive SharpFit where
  | fill
  | cover
deriving DecidableEq

/-- Geometry of one sharp resize call. -/
structure ResizePlan where
  outWidth : Nat
  outHeight : Nat
  srcWidth : Rat
  srcHeight : Rat
  scaleX : Rat
  scaleY : Rat
deriving DecidableEq

/-- Documented sharp resize geometry for a `w × h` input decoded from the
payload and a square `target` output. -/
def sharpResizePlan (w h target : Nat) (fit : SharpFit) : ResizePlan :=
  match fit with
  | SharpFit.fill =>
    { outWidth := target, outHeight := target,
      srcWidth := w, srcHeight := h,
      scaleX := (target : Rat) / w, scaleY := (target : Rat) / h }
  | SharpFit.cover =>
    { outWidth := target, outHeight := target,
      srcWidth := min (w : Rat) ((w : Rat) * h / w),
      srcHeight := min (h : Rat) ((h : Rat) * w / h),
      scaleX := max ((target : Rat) / w) ((target : Rat) / h),
      scaleY := max ((target : Rat) / w) ((target : Rat) / h) }

/-- The fit policy passed by `_preprocessImage` to `sharp.resize`:
the source literally says `fit: 'fill'`. -/
def preprocessFit : SharpFit := SharpFit.fill

/-- Source `_preprocessImage(imageBuffer)` geometry for a decoded input of
`w × h`: resize to `EXPECTED_DIMENSIONS` (300 × 300) with `fit: 'fill'`.
The `withoutEnlargement: !needsResize` flag is true only when the input is
already exactly 300 × 300, in which case the resize is the identity either
way, so the flag never changes the produced plan. -/
def preprocessImage (w h : Nat) : ResizePlan :=
  sharpResizePlan w h EXPECTED_DIMENSIONS_width preprocessFit

/-- Counterexample to claim C7 as stated: on a 1000 × 500 input the
normalizer does output exactly 300 × 300, but by sharp `fill` stretching —
the whole source is sampled (nothing is cropped) while the two axes are
scaled by different factors (3/10 horizontally, 3/5 vertically), i.e. a
non-uniform scale without cropping, which is precisely what the claimed
resize-and-crop-to-fill policy forbids; the plan differs from the `cover`
(crop-to-fill) plan. -/
theorem preprocessImage_distorts_nonsquare :
    (preprocessImage 1000 500).outWidth = 300 ∧
    (preprocessImage 1000 500).outHeight = 300 ∧
    (preprocessImage 1000 500).srcWidth = 1000 ∧
    (preprocessImage 1000 500).srcHeight = 500 ∧
    (preprocessImage 1000 500).scaleX = 3 / 10 ∧
    (preprocessImage 1000 500).scaleY = 3 / 5 ∧
    (preprocessImage 1000 500).scaleX ≠ (preprocessImage 1000 500).scaleY ∧
    preprocessImage 1000 500 ≠ sharpResizePlan 1000 500 300 SharpFit.cover := by
  refine ⟨rfl, rfl, ?_, ?_, ?_, ?_, ?_, ?_⟩
  · show ((1000 : Nat) : Rat) = 1000
    norm_num
  · show ((500 : Nat) : Rat) = 500
    norm_num
  · show ((300 : Nat) : Rat) / ((1000 : Nat) : Rat) = 3 / 10
    norm_num
  · show ((300 : Nat) : Rat) / ((500 : Nat) : Rat) = 3 / 5
    norm_num
  · show ((300 : Nat) : Rat) / ((1000 : Nat) : Rat) ≠ ((300 : Nat) : Rat) / ((500 : Nat) : Rat)
    norm_num
  · intro hEq
    have hx : (preprocessImage 1000 500).scaleX =
        (sharpResizePlan 1000 500 300 SharpFit.cover).scaleX := by rw [hEq]
    have : ((300 : Nat) : Rat) / ((1000 : Nat) : Rat) =
        max (((300 : Nat) : Rat) / ((1000 : Nat) : Rat)) (((300 : Nat) : Rat) / ((500 : Nat) : Rat)) := hx
    rw [max_eq_right (by norm_num : (((300 : Nat) : Rat) / ((1000 : Nat) : Rat)) ≤ (((300 : Nat) : Rat) / ((500 : Nat) : Rat)))] at this
    norm_num at this

/-- Claim C7 as amended: for every decodable input whose dimensions are
positive, `_preprocessImage` outputs exactly 300 × 300, but it does so with
the sharp `fill` (stretch) policy, which samples the full source without
cropping and scales the axes non-uniformly whenever the input is not
square. -/
theorem preprocessImage_dims (w h : Nat) (hw : 0 < w) (hh : 0 < h) :
    (preprocessImage w h).outWidth = 300 ∧
    (preprocessImage w h).outHeight = 300 ∧
    preprocessFit = SharpFit.fill ∧
    (preprocessImage w h).srcWidth = w ∧
    (preprocessImage w h).srcHeight = h ∧
    (w ≠ h → (preprocessImage w h).scaleX ≠ (preprocessImage w h).scaleY) := by
  refine ⟨rfl, rfl, rfl, rfl, rfl, ?_⟩
  intro hne hEq
  have hwQ : ((w : Rat)) ≠ 0 := by
    exact_mod_cast Nat.pos_iff_ne_zero.mp hw
  have hhQ : ((h : Rat)) ≠ 0 := by
    exact_mod_cast Nat.pos_iff_ne_zero.mp hh
  have h300 : ((300 : Nat) : Rat) ≠ 0 := by norm_num
  have hstep : ((300 : Nat) : Rat) / w = ((300 : Nat) : Rat) / h := hEq
  field_simp at hstep
  exact hne (by exact_mod_cast hstep.symm)

/-- Witness for C7 amended at the 1000 × 500 input of the spec scenario. -/
theorem preprocessImage_dims_witness :
    (preprocessImage 1000 500).outWidth = 300 ∧
    (preprocessImage 1000 500).outHeight = 300 :=
  ⟨(preprocessImage_dims 1000 500 (by decide) (by decide)).1,
   (preprocessImage_dims 1000 500 (by decide) (by decide)).2.1⟩

/-! ### Result parser (controllers/imageController.js, detectPlate)

The parsing block of `detectPlate` cleans the upstream reply
(`replace(/\n/g, "")`, removal of the first occurrence of a ```` ```json ````
fence with trailing whitespace, removal of the first remaining ```` ``` ````
fence, `trim()`), short-circuits the empty and `"@"` sentinel replies,
then tries `JSON.parse` (wrapping a non-array top-level value in a
one-element array) and falls back to scanning with the plate pattern of
three capital letters followed by three digits.

`JSON.parse` is a platform facility; it is modelled below by an executable
recursive-descent parser of the JSON grammar (values, arrays, objects,
strings with escapes, numbers with fraction and exponent, strict
whole-input consumption).  Numbers are modelled as exact rationals. -/

/-- ASCII decimal digit (the regex class of a digit). -/
def isDigitCh (c : Char) : Bool := 48 ≤ c.toNat && c.toNat ≤ 57

/-- ASCII capital letter (the regex class of letters A to Z). -/
def isUpperAZ (c : Char) : Bool := 65 ≤ c.toNat && c.toNat ≤ 90

/-- The JavaScript whitespace class (regex backslash-s and `trim`), on the
ASCII fragment: space, tab, newline, carriage return, vertical tab, form
feed. -/
def jsWhitespace (c : Char) : Bool :=
  c == ' ' || c == '\t' || c == '\n' || c == '\r' ||
  c == Char.ofNat 11 || c == Char.ofNat 12

/-- Model of `reply.replace(/\n/g, "")`. -/
def removeNewlines (s : List Char) : List Char :=
  s.filter fun c => !(c == '\n')

/-- Drop a maximal run of JavaScript whitespace from the front. -/
def dropJsWs : List Char → List Char
  | [] => []
  | c :: cs => if jsWhitespace c then dropJsWs cs else c :: cs

/-- Model of `reply.replace(/```json\s*/, "")`: remove the first occurrence
of the ```` ```json ```` marker together with the whitespace run after it. -/
def removeFirstFenceJson : List Char → List Char
  | [] => []
  | c :: cs =>
    if startsWithChars ("```json".toList) (c :: cs) then dropJsWs ((c :: cs).drop 7)
    else c :: removeFirstFenceJson cs

/-- Model of `reply.replace(/```/, "")`: remove the first occurrence of the
```` ``` ```` marker. -/
def removeFirstFence : List Char → List Char
  | [] => []
  | c :: cs =>
    if startsWithChars ("```".toList) (c :: cs) then (c :: cs).drop 3
    else c :: removeFirstFence cs

/-- Model of `String.prototype.trim`. -/
def trimChars (s : List Char) : List Char :=
  ((s.dropWhile (fun c => jsWhitespace c)).reverse.dropWhile
    (fun c => jsWhitespace c)).reverse

/-- The cleaning pipeline applied to `reply` before interpretation. -/
def cleanReply (raw : String) : String :=
  ⟨trimChars (removeFirstFence (removeFirstFenceJson (removeNewlines raw.toList)))⟩

/-- JSON values. -/
inductive Json where
  | null
  | bool (b : Bool)
  | num (q : Rat)
  | str (s : String)
  | arr (elems : List Json)
  | obj (members : List (String × Json))

/-- JSON whitespace (space, tab, newline, carriage return). -/
def dropJsonWs : List Char → List Char
  | [] => []
  | c :: cs =>
    if c == ' ' || c == '\t' || c == '\n' || c == '\r' then dropJsonWs cs
    else c :: cs

/-- Longest digit run at the front. -/
def takeDigits : List Char → List Char × List Char
  | [] => ([], [])
  | c :: cs =>
    if isDigitCh c then
      let (d, r) := takeDigits cs
      (c :: d, r)
    else ([], c :: cs)

/-- Numeric value of a digit run. -/
def digitsToNat (ds : List Char) : Nat :=
  ds.foldl (fun acc c => acc * 10 + (c.toNat - 48)) 0

/-- Whether the list starts with a digit (used for the leading-zero rule). -/
def leadingDigit : List Char → Bool
  | d :: _ => isDigitCh d
  | [] => false

/-- Fraction part of a JSON number: `(value, digit count, rest)`; fails on
a dot with no digits; `(0, 0, s)` when no dot is present. -/
def parseFrac : List Char → Option (Nat × Nat × List Char)
  | '.' :: r =>
    match takeDigits r with
    | ([], _) => none
    | (ds, r2) => some (digitsToNat ds, ds.length, r2)
  | s => some (0, 0, s)

/-- Exponent part of a JSON number: `(signed exponent, rest)`; fails on an
exponent marker with no digits; `(0, s)` when no marker is present. -/
def parseExp : List Char → Option (Int × List Char)
  | [] => some (0, [])
  | c :: r =>
    if c == 'e' || c == 'E' then
      let sr : Int × List Char :=
        match r with
        | '+' :: t => (1, t)
        | '-' :: t => (-1, t)
        | _ => (1, r)
      match takeDigits sr.2 with
      | ([], _) => none
      | (ds, r2) => some (sr.1 * (digitsToNat ds : Int), r2)
    else some (0, c :: r)

/-- The exact rational value of a JSON number with integer-and-fraction
mantissa and signed decimal exponent. -/
def ratOfParts (mantissa : Int) (fracLen : Nat) (e : Int) : Rat :=
  if 0 ≤ e - fracLen then mkRat (mantissa * (10 : Int) ^ (e - fracLen).toNat) 1
  else mkRat mantissa ((10 : Nat) ^ ((fracLen : Int) - e).toNat)

/-- A JSON number at the front of the input: optional minus, integer part
with the leading-zero restriction, optional fraction, optional exponent. -/
def parseNumber (s : List Char) : Option (Rat × List Char) :=
  let ns : Bool × List Char :=
    match s with
    | '-' :: r => (true, r)
    | _ => (false, s)
  match ns.2 with
  | [] => none
  | c :: r =>
    if isDigitCh c then
      if c == '0' && leadingDigit r then none
      else
        match takeDigits (c :: r) with
        | (ds, r2) =>
          match parseFrac r2 with
          | none => none
          | some (fracVal, fracLen, r3) =>
            match parseExp r3 with
            | none => none
            | some (e, r4) =>
              let m : Int := (digitsToNat ds : Int) * (10 : Int) ^ fracLen + fracVal
              some (ratOfParts (if ns.1 then -m else m) fracLen e, r4)
    else none

/-- Hexadecimal digit value. -/
def hexVal (c : Char) : Option Nat :=
  if isDigitCh c then some (c.toNat - 48)
  else if 97 ≤ c.toNat ∧ c.toNat ≤ 102 then some (c.toNat - 87)
  else if 65 ≤ c.toNat ∧ c.toNat ≤ 70 then some (c.toNat - 55)
  else none

/-- Body of a JSON string after the opening quote, with escapes; returns
the decoded characters and the input after the closing quote. -/
def parseStringChars : Nat → List Char → Option (List Char × List Char)
  | 0, _ => none
  | Nat.succ fuel, s =>
    match s with
    | [] => none
    | '"' :: r => some ([], r)
    | '\\' :: e :: r =>
      let esc : Option (Char × List Char) :=
        if e == '"' then some ('"', r)
        else if e == '\\' then some ('\\', r)
        else if e == '/' then some ('/', r)
        else if e == 'b' then some (Char.ofNat 8, r)
        else if e == 'f' then some (Char.ofNat 12, r)
        else if e == 'n' then some ('\n', r)
        else if e == 'r' then some ('\r', r)
        else if e == 't' then some ('\t', r)
        else if e == 'u' then
          match r with
          | a :: b :: c :: d :: r2 =>
            match hexVal a, hexVal b, hexVal c, hexVal d with
            | some x, some y, some z, some w =>
              some (Char.ofNat (((x * 16 + y) * 16 + z) * 16 + w), r2)
            | _, _, _, _ => none
          | _ => none
        else none
      match esc with
      | some (ch, r2) =>
        match parseStringChars fuel r2 with
        | some (cs, rest) => some (ch :: cs, rest)
        | none => none
      | none => none
    | c :: r =>
      if c.toNat < 32 then none
      else
        match parseStringChars fuel r with
        | some (cs, rest) => some (c :: cs, rest)
        | none => none

/-- Parser modes: a value, the continuation of an array after at least one
element, an object member, and the continuation of an object after at
least one member. -/
inductive PMode where
  | value
  | arrNext (acc : List Json)
  | objMember (acc : List (String × Json))
  | objNext (acc : List (String × Json))

/-- Recursive-descent JSON parser; the fuel bounds the recursion depth and
is sized generously from the input length at the top level. -/
def parseCore : Nat → PMode → List Char → Option (Json × List Char)
  | 0, _, _ => none
  | Nat.succ fuel, PMode.value, s =>
    let s1 := dropJsonWs s
    match s1 with
    | [] => none
    | c :: r =>
      if c == 'n' then
        if startsWithChars ("null".toList) s1 then some (Json.null, s1.drop 4) else none
      else if c == 't' then
        if startsWithChars ("true".toList) s1 then some (Json.bool true, s1.drop 4) else none
      else if c == 'f' then
        if startsWithChars ("false".toList) s1 then some (Json.bool false, s1.drop 5) else none
      else if c == '"' then
        match parseStringChars (r.length + 1) r with
        | some (cs, rest) => some (Json.str ⟨cs⟩, rest)
        | none => none
      else if c == '[' then
        match dropJsonWs r with
        | ']' :: r2 => some (Json.arr [], r2)
        | _ =>
          match parseCore fuel PMode.value r with
          | some (v, rest) => parseCore fuel (PMode.arrNext [v]) rest
          | none => none
      else if c == '{' then
        match dropJsonWs r with
        | '}' :: r2 => some (Json.obj [], r2)
        | _ => parseCore fuel (PMode.objMember []) r
      else if c == '-' || isDigitCh c then
        match parseNumber s1 with
        | some (q, rest) => some (Json.num q, rest)
        | none => none
      else none
  | Nat.succ fuel, PMode.arrNext acc, s =>
    match dropJsonWs s with
    | ']' :: r => some (Json.arr acc, r)
    | ',' :: r =>
      match parseCore fuel PMode.value r with
      | some (v, rest) => parseCore fuel (PMode.arrNext (acc ++ [v])) rest
      | none => none
    | _ => none
  | Nat.succ fuel, PMode.objMember acc, s =>
    match dropJsonWs s with
    | '"' :: r =>
      match parseStringChars (r.length + 1) r with
      | some (key, r2) =>
        match dropJsonWs r2 with
        | ':' :: r3 =>
          match parseCore fuel PMode.value r3 with
          | some (v, rest) => parseCore fuel (PMode.objNext (acc ++ [(⟨key⟩, v)])) rest
          | none => none
        | _ => none
      | none => none
    | _ => none
  | Nat.succ fuel, PMode.objNext acc, s =>
    match dropJsonWs s with
    | '}' :: r => some (Json.obj acc, r)
    | ',' :: r => parseCore fuel (PMode.objMember acc) r
    | _ => none

/-- Model of `JSON.parse(s)`: one JSON value, allowing surrounding
whitespace, requiring the whole input to be consumed; `none` models the
thrown `SyntaxError`. -/
def jsonParse (s : String) : Option Json :=
  match parseCore (2 * s.toList.length + 4) PMode.value s.toList with
  | some (v, rest) => if dropJsonWs rest = [] then some v else none
  | none => none

/-- One attempt of the plate pattern (three capital letters then three
digits) at the current position. -/
def matchPlateAt : List Char → Option (List Char × List Char)
  | a :: b :: c :: d :: e :: f :: rest =>
    if isUpperAZ a && isUpperAZ b && isUpperAZ c &&
       isDigitCh d && isDigitCh e && isDigitCh f then
      some ([a, b, c, d, e, f], rest)
    else none
  | _ => none

/-- Left-to-right global scan of the plate pattern: at each position try to
match; on a match emit it and continue after it, otherwise advance one
character.  This is the match set of the global regex of three capital
letters followed by three digits. -/
def scanPlates : Nat → List Char → List String
  | 0, _ => []
  | Nat.succ fuel, s =>
    match matchPlateAt s with
    | some (p, rest) => (⟨p⟩ : String) :: scanPlates fuel rest
    | none =>
      match s with
      | [] => []
      | _ :: t => scanPlates fuel t

/-- Model of `s.match(plateRegex)` (up to the `null` vs `[]` distinction,
which the source collapses by leaving `arrayReply = []` on `null`). -/
def plateMatches (s : String) : List String :=
  scanPlates s.toList.length s.toList

/-- The parse block of `detectPlate`: clean the reply; on the empty or
`"@"` sentinel reply return `[]`; otherwise try `JSON.parse`, wrapping a
non-array value in a one-element array; on a parse failure fall back to
the plate-pattern scan of the cleaned reply (an absent match set leaves
`[]`).  Total by construction: parsing never raises to the caller. -/
def detectPlateParse (reply : String) : List Json :=
  if cleanReply reply = "" ∨ cleanReply reply = "@" then []
  else
    match jsonParse (cleanReply reply) with
    | some (Json.arr xs) => xs
    | some v => [v]
    | none => (plateMatches (cleanReply reply)).map Json.str

/-- Claim C5: after cleaning, the empty and `"@"` sentinel replies yield
the empty list; a reply that parses as a JSON array — with or without
code-fence wrapping and stray newlines — yields exactly that array (for
example `["ABC123"]`); and a reply whose parsed top-level value is not an
array is wrapped as a one-element list. -/
theorem detectPlate_primary_path :
    (∀ reply : String, cleanReply reply = "@" ∨ cleanReply reply = "" →
      detectPlateParse reply = []) ∧
    detectPlateParse "[\"ABC123\"]" = [Json.str "ABC123"] ∧
    detectPlateParse "```json\n[\"ABC123\"]\n```" = [Json.str "ABC123"] ∧
    (∀ reply xs, cleanReply reply ≠ "" → cleanReply reply ≠ "@" →
      jsonParse (cleanReply reply) = some (Json.arr xs) →
      detectPlateParse reply = xs) ∧
    (∀ reply v, cleanReply reply ≠ "" → cleanReply reply ≠ "@" →
      jsonParse (cleanReply reply) = some v → (∀ xs, v ≠ Json.arr xs) →
      detectPlateParse reply = [v]) := by
  refine ⟨?_, rfl, rfl, ?_, ?_⟩
  · intro reply h
    unfold detectPlateParse
    rcases h with h | h
    · rw [if_pos (Or.inr h)]
    · rw [if_pos (Or.inl h)]
  · intro reply xs h1 h2 hp
    unfold detectPlateParse
    rw [if_neg (not_or.mpr ⟨h1, h2⟩), hp]
  · intro reply v h1 h2 hp hv
    unfold detectPlateParse
    rw [if_neg (not_or.mpr ⟨h1, h2⟩), hp]
    cases v with
    | arr xs => exact absurd rfl (hv xs)
    | null => rfl
    | bool b => rfl
    | num q => rfl
    | str s => rfl
    | obj ms => rfl

/-- Witness for C5 at concrete inputs: the sentinel reply yields the empty
list, and the scalar reply `true` is wrapped as a one-element list. -/
theorem detectPlate_primary_path_witness :
    detectPlateParse "@" = [] ∧ detectPlateParse "true" = [Json.bool true] :=
  ⟨detectPlate_primary_path.1 "@" (Or.inl rfl),
   detectPlate_primary_path.2.2.2.2 "true" (Json.bool true) (by decide) (by decide)
     rfl (fun xs h => Json.noConfusion h)⟩

/-- Claim C6: whenever structured (JSON) interpretation of the cleaned
reply fails, the parse block scans the text with the fixed plate pattern
of three letters followed by three digits and returns the matches in
order; with no matches it returns the empty list; the parse block is a
total function, so parsing never raises to the caller. -/
theorem detectPlate_fallback_path :
    (∀ reply, cleanReply reply ≠ "" → cleanReply reply ≠ "@" →
      jsonParse (cleanReply reply) = none →
      detectPlateParse reply = (plateMatches (cleanReply reply)).map Json.str) ∧
    plateMatches "plate is ABC123 and XYZ789" = ["ABC123", "XYZ789"] ∧
    detectPlateParse "plate is ABC123 and XYZ789" =
      [Json.str "ABC123", Json.str "XYZ789"] ∧
    detectPlateParse "garbage text with no plates!!" = [] ∧
    plateMatches "garbage text with no plates!!" = [] := by
  refine ⟨?_, rfl, rfl, rfl, rfl⟩
  intro reply h1 h2 hp
  unfold detectPlateParse
  rw [if_neg (not_or.mpr ⟨h1, h2⟩), hp]

/-- Witness for C6 at a concrete unstructured reply. -/
theorem detectPlate_fallback_path_witness :
    detectPlateParse "plate is ABC123 and XYZ789" =
      (plateMatches (cleanReply "plate is ABC123 and XYZ789")).map Json.str :=
  detectPlate_fallback_path.1 "plate is ABC123 and XYZ789" (by decide) (by decide) rfl

/-- Claim C10 (implicit): the primary path performs no plate-format or
element-type validation — every successfully parsed top-level value is
returned as-is (wrapped in a list when not an array), so the reply
`[1,2]` yields the non-string list `[1, 2]` and the reply `null` yields
`[null]`. -/
theorem detectPlate_returns_parsed_value_unvalidated :
    detectPlateParse "[1,2]" = [Json.num 1, Json.num 2] ∧
    detectPlateParse "null" = [Json.null] ∧
    (∀ reply v, cleanReply reply ≠ "" → cleanReply reply ≠ "@" →
      jsonParse (cleanReply reply) = some v →
      detectPlateParse reply =
        (match v with
         | Json.arr xs => xs
         | v => [v])) := by
  refine ⟨rfl, rfl, ?_⟩
  intro reply v h1 h2 hp
  unfold detectPlateParse
  rw [if_neg (not_or.mpr ⟨h1, h2⟩), hp]
  cases v <;> rfl

/-- Witness for C10 at the concrete reply `null`. -/
theorem detectPlate_returns_parsed_value_unvalidated_witness :
    detectPlateParse "null" = [Json.null] :=
  detectPlate_returns_parsed_value_unvalidated.2.2 "null" Json.null
    (by decide) (by decide) rfl

end BackIrix
